import Mathlib

/-!
# LifeQuest backend — shallow embedding and verification

Shallow embedding of the gamification core of the LifeQuest backend
(`core/leveling.py`, `core/config.py`, `routes/todos.py`, `routes/tasks.py`,
`routes/habits.py`, `core/scheduler.py`, `utils/scheduler.py`).

Modelling conventions:
* Python ints are `Int`; Python floats used for gold/xp are `ℚ`.  Every
  gold/xp value the program manipulates (10.0, 1.5-multiples, 0.10·reward)
  is exactly representable in binary64, and the operations involved
  (+, -, ·2, max, comparisons) are exact on them, so `ℚ` is faithful.
* Database writes are made explicit: each operation is a pure state
  transformer that also returns a list of write/log tags.
* Python tuples of varying arity are modelled with `Sum`: the leveling
  function returns `Sum.inl` for its 2-tuple early return and `Sum.inr`
  for its normal 3-tuple return; a Python `a, b = f()` unpacking is a
  `match` that raises `ValueError` (modelled as `Except.error`) on the
  wrong arity.
* Interaction with the external QStash collaborator is modelled by
  boolean oracles (`registrationOk`, `cancelOk`) standing for "the remote
  call did not raise"; message ids are `List Char`.
* Timestamps on the todo side are instants (`Int`); on the sweep/habit
  side they are `Ts` pairs (calendar day, seconds within the day), since
  that code only compares `.date()` values and subtracts whole days.
  All timestamps are taken to be already in the reference time zone
  (IST); `to_ist` is the identity on them.
-/

namespace LifeQuest

/-! ## Configuration (src/core/config.py) -/

/-- `settings.LEVEL_XP_THRESHOLDS` from `core/config.py`. -/
def LEVEL_XP_THRESHOLDS : List Int :=
  [100, 300, 600, 1000, 1500, 2100, 2800, 3600, 4500, 5500]

/-- The Python pattern used three times in `calculate_new_level_and_xp`:
`L[i] if i < len(L) else L[-1]`, including Python's negative indexing
for `-len(L) ≤ i < 0`. -/
def thresholdAt (i : Int) : Int :=
  if i < (LEVEL_XP_THRESHOLDS.length : Int) then
    if 0 ≤ i then LEVEL_XP_THRESHOLDS.getD i.toNat 0
    else LEVEL_XP_THRESHOLDS.getD ((LEVEL_XP_THRESHOLDS.length : Int) + i).toNat 0
  else LEVEL_XP_THRESHOLDS.getLastD 0


/-! ## Leveling calculator (src/core/leveling.py, `calculate_new_level_and_xp`)

The Python function consists of a de-leveling `while` loop (with an early
`return 1, max(0, total_xp)` — a 2-tuple), a level-up `while` loop, and a
final 3-tuple return.  We embed the two loops as recursive functions. -/

/-- The de-leveling loop.  `Sum.inl` is the early 2-tuple return
`return 1, max(0, total_xp)`; `Sum.inr` means the loop exited normally
with the given (level, total). -/
def delevelLoop (level : Int) (total : ℚ) : (Int × ℚ) ⊕ (Int × ℚ) :=
  if total < 0 then
    if level ≤ 1 then Sum.inl (1, max 0 total)
    else delevelLoop (level - 1) (total + (thresholdAt (level - 2) : ℚ))
  else Sum.inr (level, total)
termination_by (level - 1).toNat
decreasing_by omega

/-- The level-up loop: `while total_xp >= required_xp: subtract; level += 1`. -/
def levelUpLoop (level : Int) (total : ℚ) : Int × ℚ :=
  if (thresholdAt (level - 1) : ℚ) ≤ total then
    levelUpLoop (level + 1) (total - (thresholdAt (level - 1) : ℚ))
  else (level, total)
termination_by (⌈total⌉).toNat
decreasing_by
  have h100 : (100 : Int) ≤ thresholdAt (level - 1) := by
    have hlen : (LEVEL_XP_THRESHOLDS.length : Int) = 10 := by decide
    have hall : ∀ n : Nat, n < 10 → 100 ≤ LEVEL_XP_THRESHOLDS.getD n 0 := by decide
    unfold thresholdAt
    split
    · split
      · next h1 h2 =>
        exact hall _ (by omega)
      · next h1 h2 =>
        exact hall _ (by omega)
    · decide
  rename_i hle
  have hceil : (thresholdAt (level - 1) : Int) ≤ ⌈total⌉ := by
    have := Int.ceil_le_ceil hle
    simpa using this
  have hsub : ⌈total - (thresholdAt (level - 1) : ℚ)⌉ = ⌈total⌉ - thresholdAt (level - 1) := by
    exact_mod_cast Int.ceil_sub_int total (thresholdAt (level - 1))
  omega

/-- `calculate_new_level_and_xp` from `core/leveling.py`.  Returns either
the 2-tuple early return (`Sum.inl`) or the normal 3-tuple
`(new_level, total_xp, final_required_xp)` (`Sum.inr`). -/
def calculate_new_level_and_xp (current_level : Int) (current_xp xp_gain : ℚ) :
    (Int × ℚ) ⊕ (Int × ℚ × ℚ) :=
  let total_xp := current_xp + xp_gain
  match delevelLoop current_level total_xp with
  | Sum.inl p => Sum.inl p
  | Sum.inr (lvl, tot) =>
    let r := levelUpLoop lvl tot
    Sum.inr (r.1, r.2, (thresholdAt (r.1 - 1) : ℚ))

/-- Level component of either return shape. -/
def resultLevel : (Int × ℚ) ⊕ (Int × ℚ × ℚ) → Int
  | Sum.inl p => p.1
  | Sum.inr t => t.1

/-- Experience component of either return shape. -/
def resultXp : (Int × ℚ) ⊕ (Int × ℚ × ℚ) → ℚ
  | Sum.inl p => p.2
  | Sum.inr t => t.2.1

/-! ## User stats (src/models/user.py, `UserStats`) -/

structure UserStats where
  hp : Int := 100
  xp : ℚ := 0
  gold : ℚ := 0
  level : Int := 1
  max_xp : ℚ := 100
deriving DecidableEq, Repr

/-! ## Remaining game configuration (src/core/config.py) -/

def TODO_REWARD_GOLD : ℚ := 10

def TODO_XP_VALUE : Int := 20

/-- `TODO_DIFFICULTY_MULTIPLIERS.get(difficulty, 1)`. -/
def TODO_DIFFICULTY_MULTIPLIERS (d : String) : ℚ :=
  if d = "easy" then 1 else if d = "medium" then 2 else if d = "hard" then 4 else 1

def DAILY_REWARD_GOLD : ℚ := 10

def DAILY_XP_VALUE : Int := 20

def HP_PENALTY_EASY : Int := 5

def HP_PENALTY_MEDIUM : Int := 10

def HP_PENALTY_HARD : Int := 20

/-! ## QStash scheduling helpers (src/utils/scheduler.py)

The external QStash client is abstracted by boolean oracles: `registrationOk`
(resp. `cancelOk`) is true iff the remote call returns without raising.
Message ids are `List Char`; the sentinel of the `except` branch is
`"error-"` followed by a wall-clock timestamp string (modelled by the
`sentinelTs` argument). -/

abbrev MsgId := List Char

/-- `schedule_expiry_check`: returns the QStash message id on success and
the `f"error-{timestamp}"` sentinel instead of raising on failure. -/
def schedule_expiry_check (registrationOk : Bool) (messageId : MsgId)
    (sentinelTs : Int) : MsgId :=
  if registrationOk then messageId
  else "error-".toList ++ (toString sentinelTs).toList

/-- `cancel_previous_schedule`: skips falsy or sentinel ids, otherwise
attempts the remote cancel and swallows any exception. -/
def cancel_previous_schedule (cancelOk : Bool) (message_id : MsgId) : String :=
  if message_id.isEmpty || "error-".toList.isPrefixOf message_id then "skipped"
  else if cancelOk then "success" else "failed"

/-! ## Loan tasks / todos (src/models/todo.py, src/routes/todos.py) -/

inductive TStatus
  | active
  | completed
  | overdue
deriving DecidableEq, Repr

/-- The `Todo` document (src/models/todo.py), restricted to the fields the
embedded operations read or write. -/
structure Todo where
  difficulty : String := "medium"
  deadline : Option Int := none
  status : TStatus := .active
  completed_at : Option Int := none
  qstash_message_id : Option MsgId := none
  upfront_gold_given : ℚ := 0
  potential_reward : ℚ := 0
  created_at : Int := 0
deriving DecidableEq, Repr

/-- The Python truthy-and-future test `todo_in.deadline and todo_in.deadline > now`. -/
def isFutureDeadline (deadline : Option Int) (now : Int) : Bool :=
  match deadline with
  | some d => decide (now < d)
  | none => false

structure CreateResult where
  todo : Todo
  gold : ℚ
  logs : List String
deriving DecidableEq, Repr

/-- `create_todo` (routes/todos.py lines 25-95): computes the potential
reward from the difficulty, and — when a future deadline is supplied —
stores the upfront loan on the todo, schedules the expiry check (keeping
whatever handle `schedule_expiry_check` returns, sentinel included),
credits the loan to the user's gold and writes an audit entry. -/
def create_todo (difficulty : String) (deadline : Option Int) (now : Int)
    (registrationOk : Bool) (messageId : MsgId) (gold : ℚ) : CreateResult :=
  let mult := TODO_DIFFICULTY_MULTIPLIERS difficulty
  let potential_reward := TODO_REWARD_GOLD * mult
  let upfront_gold : ℚ := if isFutureDeadline deadline now then potential_reward else 0
  let todo0 : Todo :=
    { difficulty := difficulty, deadline := deadline, status := .active,
      completed_at := none, qstash_message_id := none,
      upfront_gold_given := upfront_gold, potential_reward := potential_reward,
      created_at := now }
  if isFutureDeadline deadline now then
    let qid := schedule_expiry_check registrationOk messageId now
    { todo := { todo0 with qstash_message_id := some qid },
      gold := gold + upfront_gold,
      logs := ["todo_create"] }
  else
    { todo := todo0, gold := gold, logs := [] }

/-- `check_todo_validity` (routes/todos.py lines 103-148): the QStash
deadline webhook.  Completed → early return; active → mark overdue and
deduct `2 × upfront_gold_given` floored at 0 plus an audit entry;
otherwise (overdue) fall through with no writes.  The handle
`qstash_message_id` is left untouched in every case. -/
def check_todo_validity (t : Todo) (gold : ℚ) : Todo × ℚ × List String :=
  if t.status = .completed then (t, gold, [])
  else if t.status = .active then
    let penalty := 2 * t.upfront_gold_given
    ({ t with status := .overdue }, max 0 (gold - penalty), ["todo_overdue"])
  else (t, gold, [])

/-- `complete_todo` (routes/todos.py lines 226-276).  Errors on non-active
status; otherwise cancels any schedule, credits `potential_reward`, applies
xp through the leveling calculator (unpacking **three** values — the
2-tuple early return would raise `ValueError`), and marks the todo
completed with the handle cleared.  `upfront_gold_given` is left as is. -/
def complete_todo (t : Todo) (s : UserStats) (now : Int) :
    Except String (Todo × UserStats) :=
  if t.status ≠ .active then .error "Cannot complete inactive todo"
  else
    let reward := t.potential_reward
    let xp_gain : ℚ := (TODO_XP_VALUE : ℚ) * TODO_DIFFICULTY_MULTIPLIERS t.difficulty
    let new_gold := s.gold + reward
    match calculate_new_level_and_xp s.level s.xp xp_gain with
    | Sum.inl _ => .error "ValueError: not enough values to unpack"
    | Sum.inr r =>
      .ok ({ t with
               status := .completed,
               completed_at := some now,
               qstash_message_id := none },
           { s with
               gold := new_gold, xp := r.2.1, level := r.1, max_xp := r.2.2 })

structure DeleteResult where
  gold : ℚ
  cancelRequested : Bool
deriving DecidableEq, Repr

/-- `delete_todo` (routes/todos.py lines 278-299): cancels the schedule if
a handle is present, and whenever `upfront_gold_given > 0` — with **no**
check of `status` or completion — claws it back from the user's gold,
floored at 0. -/
def delete_todo (t : Todo) (gold : ℚ) : DeleteResult :=
  let cancelRequested := t.qstash_message_id.isSome
  if t.upfront_gold_given > 0 then
    { gold := max 0 (gold - t.upfront_gold_given), cancelRequested := cancelRequested }
  else
    { gold := gold, cancelRequested := cancelRequested }

/-- `update_todo` (routes/todos.py lines 150-224).  `deadlineUpdate` is
`none` when the request body omits the `deadline` key (pydantic
`exclude_unset`), `some d` when it sets it to `d : Option Int`. -/
def update_todo (t : Todo) (gold : ℚ) (deadlineUpdate : Option (Option Int))
    (now : Int) (registrationOk : Bool) (messageId : MsgId) :
    Except String (Todo × ℚ) :=
  if t.status ≠ .active then .error "Cannot edit inactive todo"
  else
    match deadlineUpdate with
    | none => .ok (t, gold)
    | some newDeadline =>
      match t.deadline, newDeadline with
      | some _, none =>
        -- Case 1: deadline removed → revert loan, cancel schedule.
        let gold' := if t.upfront_gold_given > 0
          then max 0 (gold - t.upfront_gold_given) else gold
        let upfront' := if t.upfront_gold_given > 0 then (0 : ℚ)
          else t.upfront_gold_given
        .ok ({ t with
                 deadline := none,
                 upfront_gold_given := upfront',
                 qstash_message_id := none }, gold')
      | none, some d =>
        -- Case 2: deadline added.
        if now < d then
          let qid := schedule_expiry_check registrationOk messageId now
          .ok ({ t with
                   deadline := some d,
                   upfront_gold_given := t.potential_reward,
                   qstash_message_id := some qid }, gold + t.potential_reward)
        else .ok ({ t with deadline := some d }, gold)
      | some _, some d =>
        -- Case 3: deadline changed.
        if now < d then
          let qid := schedule_expiry_check registrationOk messageId now
          .ok ({ t with
                   deadline := some d,
                   qstash_message_id := some qid }, gold)
        else .ok ({ t with deadline := some d }, gold)
      | none, none => .ok (t, gold)

/-- `renew_todo` (routes/todos.py lines 301-347): only from overdue, needs
a future deadline and 10% of the reward as fee; reschedules and reactivates,
leaving `upfront_gold_given` untouched. -/
def renew_todo (t : Todo) (gold : ℚ) (newDeadline : Option Int) (now : Int)
    (registrationOk : Bool) (messageId : MsgId) : Except String (Todo × ℚ) :=
  if t.status ≠ .overdue then .error "Only overdue todos can be renewed"
  else
    match newDeadline with
    | none => .error "Must provide future deadline"
    | some d =>
      if d ≤ now then .error "Must provide future deadline"
      else
        let cost := (1 / 10 : ℚ) * t.potential_reward
        if gold < cost then .error "Not enough gold to renew"
        else
          let qid := schedule_expiry_check registrationOk messageId now
          .ok ({ t with
                   status := .active,
                   deadline := some d,
                   qstash_message_id := some qid }, gold - cost)

/-- The C6 invariant: the scheduled-callback handle is non-null iff the
task is active and a future deadline exists (relative to `now`). -/
def LoanInv (t : Todo) (now : Int) : Prop :=
  t.qstash_message_id.isSome = true ↔
    (t.status = .active ∧ isFutureDeadline t.deadline now = true)

instance (t : Todo) (now : Int) : Decidable (LoanInv t now) := by
  unfold LoanInv
  infer_instance

/-! ## Calendar timestamps

`Ts` models an IST datetime as (calendar day number, seconds within the
day); `.date()` is the `day` projection and `timedelta(days = 1)` is
`day - 1`. -/

structure Ts where
  day : Int
  sec : Int := 0
deriving DecidableEq, Repr

/-! ## Generic tasks (src/models/task.py), restricted to the fields the
embedded operations read or write. -/

structure Task where
  type : String
  difficulty : String := "medium"
  completed : Bool := false
  status : String := "active"
  streak : Int := 0
  completed_today : Bool := false
  last_completed_date : Option Ts := none
deriving DecidableEq, Repr

/-- `toggle_daily` (routes/tasks.py lines 334-396).  The source computes
`new_gold`/`new_xp` and then executes
`new_level, new_xp = calculate_new_level_and_xp(...)` — a **two**-target
unpack, which raises `ValueError` whenever the leveling calculator
returns its normal 3-tuple; nothing is persisted in that case because the
database writes come after the unpack. -/
def toggle_daily (t : Task) (s : UserStats) : Except String (Task × UserStats) :=
  if t.type ≠ "daily" then .error "Not a daily"
  else
    -- (new_completed, gold_change, xp_change, streak_change, status_val)
    let b : Bool × ℚ × ℚ × Int × String :=
      if ¬ t.completed then (true, DAILY_REWARD_GOLD, (DAILY_XP_VALUE : ℚ), 1, "completed")
      else (false, -DAILY_REWARD_GOLD, -(DAILY_XP_VALUE : ℚ), -1, "active")
    let new_gold := s.gold + b.2.1
    match calculate_new_level_and_xp s.level s.xp b.2.2.1 with
    | Sum.inr _ => .error "ValueError: too many values to unpack"
    | Sum.inl p =>
      .ok ({ t with
               completed := b.1,
               status := b.2.2.2.2,
               streak := max 0 (t.streak + b.2.2.2.1) },
           { s with gold := new_gold, xp := p.2, level := p.1 })

/-! ## Trigger-variant habits (src/models/habit.py, src/routes/habits.py) -/

structure Milestone where
  label : String
  day_count : Int
  unlocked_at : Ts
deriving DecidableEq, Repr

structure Habit where
  type : String := "positive"
  difficulty : String := "medium"
  current_streak : Int := 0
  best_streak : Int := 0
  last_completed_date : Option Ts := none
  milestones : List Milestone := []
deriving DecidableEq, Repr

inductive HabitAction
  | success
  | failure
deriving DecidableEq, Repr

/-- The trigger route's own multiplier table
`{"easy": 1, "medium": 1.5, "hard": 2}` with default 1. -/
def HABIT_TRIGGER_MULT (d : String) : ℚ :=
  if d = "easy" then 1 else if d = "medium" then 3 / 2 else if d = "hard" then 2 else 1

def MILESTONES : List Int := [7, 21, 30, 66, 100, 365]

/-- `f"{new_streak}-Day Streak!"`. -/
def milestoneLabel (streak : Int) : String := toString streak ++ "-Day Streak!"

structure TriggerResult where
  habit : Habit
  stats : UserStats
  xp_change : ℚ
  gold_change : ℚ
  badge_unlocked : Bool
  badge_label : String
deriving DecidableEq, Repr

/-- The trigger logic table (routes/habits.py lines 87-106):
`(xp_change, gold_change, streak_change, hp_loss)` before multipliers. -/
def triggerBase (ty : String) (action : HabitAction) : ℚ × ℚ × Int × ℚ :=
  if ty = "positive" ∧ action = .success then (10, 5, 1, 0)
  else if ty = "positive" ∧ action = .failure then (0, 0, -100, 10)
  else if ty ≠ "positive" ∧ action = .success then (10, 5, 1, 0)
  else (0, 0, -100, 20)

/-- The milestone block (routes/habits.py lines 125-144):
`(badge_unlocked, badge_label, milestones, xp_change, gold_change)`. -/
def milestoneUpdate (h : Habit) (streak_change new_streak : Int) (mult xp1 gold1 : ℚ)
    (now : Ts) : Bool × String × List Milestone × ℚ × ℚ :=
  if streak_change = 1 ∧ new_streak ∈ MILESTONES ∧
      milestoneLabel new_streak ∉ h.milestones.map (fun m => m.label) then
    (true, milestoneLabel new_streak,
      h.milestones ++
        [{ label := milestoneLabel new_streak, day_count := new_streak, unlocked_at := now }],
      xp1 + ((new_streak * 5 : Int) : ℚ) * mult,
      gold1 + ((new_streak * 2 : Int) : ℚ) * mult)
  else (false, "", h.milestones, xp1, gold1)

/-- `trigger_habit` (routes/habits.py lines 42-204): the 2×2
polarity × outcome table, streak/best-streak update, milestone unlock
guarded by label membership, hp-loss xp proxy, and the user-stats update
through the leveling calculator (three-target unpack: the 2-tuple early
return raises `ValueError`, in which case no state is written). -/
def trigger_habit (h : Habit) (action : HabitAction) (s : UserStats) (now : Ts) :
    Except String TriggerResult :=
  let base := triggerBase h.type action
  let mult := HABIT_TRIGGER_MULT h.difficulty
  let xp1 := base.1 * mult
  let gold1 := base.2.1 * mult
  let streak_change := base.2.2.1
  let hp_loss := base.2.2.2 * mult
  let new_streak := if streak_change = 1 then h.current_streak + 1
    else if streak_change < 0 then 0 else h.current_streak
  let new_best_streak := max h.best_streak new_streak
  let u := milestoneUpdate h streak_change new_streak mult xp1 gold1 now
  let xp2 := if 0 < hp_loss then u.2.2.2.1 - 5 else u.2.2.2.1
  let new_gold := s.gold + u.2.2.2.2
  match calculate_new_level_and_xp s.level s.xp xp2 with
  | Sum.inl _ => .error "ValueError: not enough values to unpack"
  | Sum.inr r =>
    .ok { habit := { h with
            current_streak := new_streak,
            best_streak := new_best_streak,
            last_completed_date := some now,
            milestones := u.2.2.1 },
          stats := { s with gold := new_gold, xp := r.2.1, level := r.1, max_xp := r.2.2 },
          xp_change := xp2,
          gold_change := u.2.2.2.2,
          badge_unlocked := u.1,
          badge_label := u.2.1 }

/-- One step of a client-driven trigger sequence: an HTTP 500 from the
unpack `ValueError` leaves the persisted state unchanged. -/
def triggerStep (st : Habit × UserStats) (a : HabitAction × Ts) : Habit × UserStats :=
  match trigger_habit st.1 a.1 st.2 a.2 with
  | .ok r => (r.habit, r.stats)
  | .error _ => st

def runTriggers (st : Habit × UserStats) (acts : List (HabitAction × Ts)) :
    Habit × UserStats :=
  acts.foldl triggerStep st

/-! ## Daily reconciliation sweep (src/core/scheduler.py,
`run_daily_maintenance`), per-user body. -/

/-- `penalty_map.get(diff, settings.HP_PENALTY_MEDIUM)`. -/
def hpPenaltyFor (difficulty : String) : Int :=
  if difficulty = "easy" then HP_PENALTY_EASY
  else if difficulty = "medium" then HP_PENALTY_MEDIUM
  else if difficulty = "hard" then HP_PENALTY_HARD
  else HP_PENALTY_MEDIUM

/-- The per-habit part of the sweep (scheduler.py lines 54-125): decide
whether yesterday was missed, reset the streak and accumulate damage if
so, and re-derive `completed_today` from `last_completed_date` (written
only when it differs). -/
def sweepHabitTask (now : Ts) (h : Task) : Task × Int × List String :=
  let yesterday := now.day - 1
  let missed_yesterday : Bool :=
    match h.last_completed_date with
    | some d => !(decide (d.day = yesterday) || decide (d.day = now.day))
    | none => !h.completed_today
  let penalized := missed_yesterday && decide (0 < h.streak)
  let streakNew := if penalized then 0 else h.streak
  let dmg := if penalized then hpPenaltyFor h.difficulty else 0
  let logs1 : List String := if penalized then ["streak_reset", "penalty_log"] else []
  let should_be_completed : Bool :=
    match h.last_completed_date with
    | some d => decide (d.day = now.day)
    | none => false
  let logs2 : List String :=
    if h.completed_today ≠ should_be_completed then ["flag_write"] else []
  ({ h with streak := streakNew, completed_today := should_be_completed },
    dmg, logs1 ++ logs2)

/-- The per-user persisted state the sweep can reach: the watermark and hp
on the user document, the generic `tasks` collection entries, and — for
the frame property — the separate trigger-variant `habits` collection
entries, which the sweep never queries. -/
structure SweepUser where
  last_cron_check : Option Ts := none
  hp : Int := 100
  tasks : List Task := []
  habits : List Habit := []
deriving DecidableEq, Repr

/-- `now_ist.date() > last_check.date()`, with a missing watermark replaced
by `datetime.min` (which always triggers). -/
def dayRolledOver (lastCheck : Option Ts) (now : Ts) : Bool :=
  match lastCheck with
  | none => true
  | some lc => decide (lc.day < now.day)

/-- The per-user body of `run_daily_maintenance` (scheduler.py lines
25-147).  Returns the new persisted state and the list of write/log tags
issued for this user. -/
def run_daily_maintenance_user (now : Ts) (u : SweepUser) : SweepUser × List String :=
  if dayRolledOver u.last_cron_check now then
    let pass1 := u.tasks.map (fun t =>
      if t.type = "habit" then sweepHabitTask now t else (t, 0, ([] : List String)))
    let tasks1 := pass1.map (fun r => r.1)
    let total_damage := (pass1.map (fun r => r.2.1)).sum
    let habitLogs := (pass1.map (fun r => r.2.2)).flatten
    let hp1 := if 0 < total_damage then max 0 (u.hp - total_damage) else u.hp
    let hpLogs : List String := if 0 < total_damage then ["hp_write"] else []
    let dailyLogs : List String :=
      if tasks1.any (fun t => t.type == "daily" && t.completed) then ["daily_reset"] else []
    let tasks2 := tasks1.map (fun t =>
      if t.type == "daily" && t.completed then { t with completed := false } else t)
    ({ u with tasks := tasks2, hp := hp1, last_cron_check := some now },
      habitLogs ++ hpLogs ++ dailyLogs ++ ["watermark_write"])
  else (u, [])

/-! ## Concrete fixtures used in witnesses and counterexamples -/

/-- The loan todo of the spec's scenario: difficulty hard, potential
reward 40, future deadline, upfront loan 40, live schedule handle.
Produced by `create_todo "hard" (some 100) 0 true "m".toList gold`. -/
def sampleLoanTodo : Todo :=
  { difficulty := "hard", deadline := some 100, status := .active,
    completed_at := none, qstash_message_id := some "m".toList,
    upfront_gold_given := 40, potential_reward := 40, created_at := 0 }

/-- `sampleLoanTodo` after `complete_todo` at time 1. -/
def completedLoanTodo : Todo :=
  { sampleLoanTodo with
      status := .completed, completed_at := some 1, qstash_message_id := none }

def sampleDaily : Task :=
  { type := "daily", difficulty := "easy", completed := false,
    status := "active", streak := 3 }

def sampleStats : UserStats :=
  { hp := 100, xp := 0, gold := 40, level := 1, max_xp := 100 }

/-- A positive habit whose streak already visited 7 once: the 7-day label
is present while the current streak is back at 6. -/
def sampleHabit : Habit :=
  { type := "positive", difficulty := "easy", current_streak := 6,
    best_streak := 7, last_completed_date := none,
    milestones := [{ label := "7-Day Streak!", day_count := 7, unlocked_at := ⟨0, 0⟩ }] }

/-- What `trigger_habit sampleHabit .success sampleStats ⟨1, 0⟩` returns:
streak back at 7, the already-present label not re-appended, no badge,
base reward only. -/
def sampleTriggerResult : TriggerResult :=
  { habit := { sampleHabit with
      current_streak := 7, best_streak := 7, last_completed_date := some ⟨1, 0⟩ },
    stats := { hp := 100, xp := 10, gold := 45, level := 1, max_xp := 100 },
    xp_change := 10, gold_change := 5,
    badge_unlocked := false, badge_label := "" }

def sampleSweepUser : SweepUser :=
  { last_cron_check := some ⟨9, 0⟩, hp := 100,
    tasks := [{ type := "habit", difficulty := "easy", streak := 4,
                completed_today := true, last_completed_date := some ⟨9, 10⟩ },
              { type := "daily", difficulty := "medium", completed := true },
              { type := "todo", difficulty := "hard", streak := 1 }],
    habits := [sampleHabit] }

/-! ## Leveling calculator: properties -/

lemma thresholdAt_ge (i : Int) : 100 ≤ thresholdAt i := by
  have hlen : (LEVEL_XP_THRESHOLDS.length : Int) = 10 := by decide
  have hall : ∀ n : Nat, n < 10 → 100 ≤ LEVEL_XP_THRESHOLDS.getD n 0 := by decide
  unfold thresholdAt
  split
  · split
    · next h1 h2 =>
      exact hall i.toNat (by omega)
    · next h1 h2 =>
      exact hall ((LEVEL_XP_THRESHOLDS.length : Int) + i).toNat (by omega)
  · decide

lemma thresholdAt_pos (i : Int) : 0 < thresholdAt i :=
  lt_of_lt_of_le (by norm_num) (thresholdAt_ge i)

lemma delevelLoop_inl {l : Int} {t : ℚ} {p : Int × ℚ}
    (h : delevelLoop l t = Sum.inl p) : p = (1, 0) := by
  induction l, t using delevelLoop.induct with
  | case1 l t h1 h2 =>
    rw [delevelLoop] at h
    simp only [if_pos h1, if_pos h2, Sum.inl.injEq] at h
    have hmax : max (0 : ℚ) t = 0 := max_eq_left (le_of_lt h1)
    rw [hmax] at h
    exact h.symm
  | case2 l t h1 h2 ih =>
    rw [delevelLoop] at h
    simp only [if_pos h1, if_neg h2] at h
    exact ih h
  | case3 l t h1 =>
    rw [delevelLoop] at h
    simp only [if_neg h1] at h
    exact absurd h (by simp)

lemma delevelLoop_inr {l : Int} {t : ℚ} {q : Int × ℚ}
    (h : delevelLoop l t = Sum.inr q) : 0 ≤ q.2 ∧ (1 ≤ l → 1 ≤ q.1) := by
  induction l, t using delevelLoop.induct with
  | case1 l t h1 h2 =>
    rw [delevelLoop] at h
    simp only [if_pos h1, if_pos h2] at h
    exact absurd h (by simp)
  | case2 l t h1 h2 ih =>
    rw [delevelLoop] at h
    simp only [if_pos h1, if_neg h2] at h
    have := ih h
    exact ⟨this.1, fun _ => this.2 (by omega)⟩
  | case3 l t h1 =>
    rw [delevelLoop] at h
    simp only [if_neg h1, Sum.inr.injEq] at h
    subst h
    exact ⟨le_of_not_lt h1, fun hl => hl⟩

lemma levelUpLoop_props (l : Int) (t : ℚ) :
    (1 ≤ l → 1 ≤ (levelUpLoop l t).1) ∧ (0 ≤ t → 0 ≤ (levelUpLoop l t).2) := by
  induction l, t using levelUpLoop.induct with
  | case1 l t h1 ih =>
    rw [levelUpLoop]
    simp only [if_pos h1]
    refine ⟨fun hl => ih.1 (by omega), fun _ => ih.2 ?_⟩
    have := thresholdAt_ge (l - 1)
    have h100 : (100 : ℚ) ≤ (thresholdAt (l - 1) : ℚ) := by exact_mod_cast this
    linarith
  | case2 l t h1 =>
    rw [levelUpLoop]
    simp only [if_neg h1]
    exact ⟨fun hl => hl, fun ht => ht⟩

/-- The components of any return of `calculate_new_level_and_xp` from a
level `≥ 1`: level stays `≥ 1` and experience stays `≥ 0`. -/
lemma calculate_components (level : Int) (xp delta : ℚ) (hl : 1 ≤ level) :
    1 ≤ resultLevel (calculate_new_level_and_xp level xp delta) ∧
      0 ≤ resultXp (calculate_new_level_and_xp level xp delta) := by
  unfold calculate_new_level_and_xp
  rcases hd : delevelLoop level (xp + delta) with p | q
  · have := delevelLoop_inl hd
    subst this
    simp only [hd, resultLevel, resultXp]
    norm_num
  · obtain ⟨lvl, tot⟩ := q
    have h1 := delevelLoop_inr hd
    have h2 := levelUpLoop_props lvl tot
    simp only [hd, resultLevel, resultXp]
    exact ⟨h2.1 (h1.2 hl), h2.2 h1.1⟩

/-- At level 1 with negative net experience, the early return fires
and yields the 2-tuple `(1, 0)`. -/
lemma calculate_level_one_neg (xp delta : ℚ) (h : xp + delta < 0) :
    calculate_new_level_and_xp 1 xp delta = Sum.inl (1, 0) := by
  have hd : delevelLoop 1 (xp + delta) = Sum.inl (1, 0) := by
    rw [delevelLoop]
    rw [if_pos h, if_pos (le_refl (1 : Int))]
    have hmax : max (0 : ℚ) (xp + delta) = 0 := max_eq_left (le_of_lt h)
    rw [hmax]
  simp only [calculate_new_level_and_xp, hd]

/-! Step lemmas used to evaluate the loops on concrete inputs. -/

lemma delevelLoop_nonneg {l : Int} {t : ℚ} (h : 0 ≤ t) :
    delevelLoop l t = Sum.inr (l, t) := by
  rw [delevelLoop, if_neg (not_lt.mpr h)]

lemma levelUpLoop_step {l : Int} {t : ℚ} (h : (thresholdAt (l - 1) : ℚ) ≤ t) :
    levelUpLoop l t = levelUpLoop (l + 1) (t - (thresholdAt (l - 1) : ℚ)) := by
  rw [levelUpLoop, if_pos h]

lemma levelUpLoop_stop {l : Int} {t : ℚ} (h : t < (thresholdAt (l - 1) : ℚ)) :
    levelUpLoop l t = (l, t) := by
  rw [levelUpLoop, if_neg (not_le.mpr h)]

lemma calc_of_loops {level : Int} {xp gain tot : ℚ} {lvl finL : Int} {finX : ℚ}
    (h1 : delevelLoop level (xp + gain) = Sum.inr (lvl, tot))
    (h2 : levelUpLoop lvl tot = (finL, finX)) :
    calculate_new_level_and_xp level xp gain =
      Sum.inr (finL, finX, (thresholdAt (finL - 1) : ℚ)) := by
  simp only [calculate_new_level_and_xp, h1, h2]

lemma calculate_eval_1_0_80 :
    calculate_new_level_and_xp 1 0 80 = Sum.inr (1, 80, 100) := by
  have t0 : thresholdAt 0 = 100 := by decide
  have h1 : delevelLoop 1 ((0 : ℚ) + 80) = Sum.inr (1, (0 : ℚ) + 80) :=
    delevelLoop_nonneg (by norm_num)
  have h2 : levelUpLoop 1 ((0 : ℚ) + 80) = (1, 80) := by
    rw [levelUpLoop_stop (by norm_num [t0])]
    norm_num
  have := calc_of_loops h1 h2
  rw [this]
  norm_num [t0]

lemma calculate_eval_1_0_20 :
    calculate_new_level_and_xp 1 0 20 = Sum.inr (1, 20, 100) := by
  have t0 : thresholdAt 0 = 100 := by decide
  have h1 : delevelLoop 1 ((0 : ℚ) + 20) = Sum.inr (1, (0 : ℚ) + 20) :=
    delevelLoop_nonneg (by norm_num)
  have h2 : levelUpLoop 1 ((0 : ℚ) + 20) = (1, 20) := by
    rw [levelUpLoop_stop (by norm_num [t0])]
    norm_num
  have := calc_of_loops h1 h2
  rw [this]
  norm_num [t0]

lemma calculate_eval_1_0_10 :
    calculate_new_level_and_xp 1 0 10 = Sum.inr (1, 10, 100) := by
  have t0 : thresholdAt 0 = 100 := by decide
  have h1 : delevelLoop 1 ((0 : ℚ) + 10) = Sum.inr (1, (0 : ℚ) + 10) :=
    delevelLoop_nonneg (by norm_num)
  have h2 : levelUpLoop 1 ((0 : ℚ) + 10) = (1, 10) := by
    rw [levelUpLoop_stop (by norm_num [t0])]
    norm_num
  have := calc_of_loops h1 h2
  rw [this]
  norm_num [t0]

/-! ## Claim C1 -/

/-- **C1** (code bug).  The spec contract says
`applyExperience(level, experience, delta)` always returns a triple
`(newLevel, newExperience, requirementForNewLevel)` with no failure modes,
including negative net experience at level 1.  The code's early return
`return 1, max(0, total_xp)` (leveling.py line 25) yields a **2-tuple**
precisely in that case, while the normal path returns a 3-tuple — shown
here side by side on `(1, 0, -5)` (pair `(1, 0)`) and on the spec's own
scenario `(1, 0, +250)` (triple `(2, 150, 300)`).  Callers that unpack
three values (`complete_todo`, `trigger_habit`) raise `ValueError` on the
2-tuple case. -/
theorem C1_applyExperience_arity_mismatch :
    calculate_new_level_and_xp 1 0 (-5) = Sum.inl (1, 0) ∧
      calculate_new_level_and_xp 1 0 250 = Sum.inr (2, 150, 300) := by
  constructor
  · exact calculate_level_one_neg 0 (-5) (by norm_num)
  · have t0 : thresholdAt 0 = 100 := by decide
    have t1 : thresholdAt 1 = 300 := by decide
    have h1 : delevelLoop 1 ((0 : ℚ) + 250) = Sum.inr (1, (0 : ℚ) + 250) :=
      delevelLoop_nonneg (by norm_num)
    have h2 : levelUpLoop 1 ((0 : ℚ) + 250) = (2, 150) := by
      rw [levelUpLoop_step (by norm_num [t0]), levelUpLoop_stop (by norm_num [t0, t1])]
      norm_num [t0]
    have := calc_of_loops h1 h2
    rw [this]
    norm_num [t1]

/-! ## Claim C2 -/

/-- **C2** (confirmed).  For integer inputs with `level ≥ 1` and
`experience ≥ 0` and any integer delta, the returned level is `≥ 1`, the
returned experience is `≥ 0`, and at level 1 with negative net experience
the returned experience is exactly 0. -/
theorem C2_applyExperience_floors (level xp delta : Int)
    (hl : 1 ≤ level) (hx : 0 ≤ xp) :
    1 ≤ resultLevel (calculate_new_level_and_xp level (xp : ℚ) (delta : ℚ)) ∧
      0 ≤ resultXp (calculate_new_level_and_xp level (xp : ℚ) (delta : ℚ)) ∧
      (level = 1 → xp + delta < 0 →
        resultXp (calculate_new_level_and_xp level (xp : ℚ) (delta : ℚ)) = 0) := by
  obtain ⟨h1, h2⟩ := calculate_components level (xp : ℚ) (delta : ℚ) hl
  refine ⟨h1, h2, fun hlev hneg => ?_⟩
  subst hlev
  have hq : (xp : ℚ) + (delta : ℚ) < 0 := by exact_mod_cast hneg
  rw [calculate_level_one_neg _ _ hq]
  simp [resultXp]

/-- Witness for C2 at `(level, xp, delta) = (1, 0, -5)`. -/
theorem C2_applyExperience_floors_witness :
    (1 : Int) ≤ 1 ∧ (0 : Int) ≤ 0 ∧
      (1 ≤ resultLevel (calculate_new_level_and_xp 1 ((0 : Int) : ℚ) ((-5 : Int) : ℚ)) ∧
        0 ≤ resultXp (calculate_new_level_and_xp 1 ((0 : Int) : ℚ) ((-5 : Int) : ℚ)) ∧
        ((1 : Int) = 1 → (0 : Int) + (-5) < 0 →
          resultXp (calculate_new_level_and_xp 1 ((0 : Int) : ℚ) ((-5 : Int) : ℚ)) = 0)) :=
  ⟨by norm_num, by norm_num, C2_applyExperience_floors 1 0 (-5) (by norm_num) (by norm_num)⟩

/-! ## Deadline callback (C3) -/

lemma check_not_active {t : Todo} {gold : ℚ} (h : t.status ≠ .active) :
    check_todo_validity t gold = (t, gold, []) := by
  unfold check_todo_validity
  by_cases h1 : t.status = .completed
  · rw [if_pos h1]
  · rw [if_neg h1, if_neg h]

lemma check_active {t : Todo} {gold : ℚ} (h : t.status = .active) :
    check_todo_validity t gold =
      ({ t with status := .overdue },
        max 0 (gold - 2 * t.upfront_gold_given), ["todo_overdue"]) := by
  unfold check_todo_validity
  rw [if_neg (by simp [h]), if_pos h]

/-- **C3** (confirmed).  The deadline callback is a no-op on every
non-active loan task; on an active one it marks it overdue and floors the
owner's gold at `gold - 2·upfrontGoldGiven`; the state it produces is
ignored by a second delivery, which changes nothing and writes nothing;
and with an upfront loan of 40 the single penalty is exactly 80. -/
theorem C3_deadline_callback_penalty (t : Todo) (gold : ℚ) :
    (t.status ≠ .active → check_todo_validity t gold = (t, gold, [])) ∧
      (t.status = .active →
        check_todo_validity t gold =
          ({ t with status := .overdue },
            max 0 (gold - 2 * t.upfront_gold_given), ["todo_overdue"])) ∧
      (t.status = .active →
        check_todo_validity (check_todo_validity t gold).1 (check_todo_validity t gold).2.1 =
          ((check_todo_validity t gold).1, (check_todo_validity t gold).2.1, [])) ∧
      (t.status = .active → t.upfront_gold_given = 40 →
        (check_todo_validity t gold).2.1 = max 0 (gold - 80)) := by
  refine ⟨fun h => check_not_active h, fun h => check_active h, fun h => ?_, fun h hu => ?_⟩
  · rw [check_active h]
    exact check_not_active (by simp)
  · rw [check_active h, hu]
    norm_num

/-- Witness for C3 on the spec's scenario todo (upfront 40) held at 30
gold: one delivery floors gold at 0 after the 80 penalty, the second
delivery is a no-op. -/
theorem C3_deadline_callback_penalty_witness :
    sampleLoanTodo.status = .active ∧ sampleLoanTodo.upfront_gold_given = 40 ∧
      (check_todo_validity sampleLoanTodo 30).2.1 = max 0 (30 - 80) ∧
      check_todo_validity (check_todo_validity sampleLoanTodo 30).1
          (check_todo_validity sampleLoanTodo 30).2.1 =
        ((check_todo_validity sampleLoanTodo 30).1,
          (check_todo_validity sampleLoanTodo 30).2.1, []) :=
  ⟨rfl, rfl,
    (C3_deadline_callback_penalty sampleLoanTodo 30).2.2.2 rfl rfl,
    (C3_deadline_callback_penalty sampleLoanTodo 30).2.2.1 rfl⟩

/-! ## Daily toggle (C4) -/

lemma calculate_eval_1_20_undo :
    calculate_new_level_and_xp 1 20 (-20) = Sum.inr (1, 0, 100) := by
  have t0 : thresholdAt 0 = 100 := by decide
  have h1 : delevelLoop 1 ((20 : ℚ) + -20) = Sum.inr (1, (20 : ℚ) + -20) :=
    delevelLoop_nonneg (by norm_num)
  have h2 : levelUpLoop 1 ((20 : ℚ) + -20) = (1, 0) := by
    rw [levelUpLoop_stop (by norm_num [t0])]
    norm_num
  have := calc_of_loops h1 h2
  rw [this]
  norm_num [t0]

/-- **C4** (code bug).  The spec says a daily can be toggled complete
(granting fixed gold/xp and streak+1) and toggled back (reversing both),
applying experience through the leveling calculator both ways.  The code
executes `new_level, new_xp = calculate_new_level_and_xp(...)` — a
two-target unpack of the calculator's normal 3-tuple — so toggling a
daily raises `ValueError` before any database write, in both directions
(shown here for the complete direction from a fresh level-1 user, and for
the undo direction from the state the spec's round trip would start
from).  No reward is granted and no round trip exists. -/
theorem C4_daily_toggle_unpack_crash :
    toggle_daily sampleDaily sampleStats = .error "ValueError: too many values to unpack" ∧
      toggle_daily { sampleDaily with completed := true, status := "completed", streak := 4 }
          { sampleStats with xp := 20, gold := 50 } =
        .error "ValueError: too many values to unpack" := by
  constructor
  · have e : ((DAILY_XP_VALUE : Int) : ℚ) = 20 := by norm_num [DAILY_XP_VALUE]
    simp only [toggle_daily, sampleDaily, sampleStats]
    norm_num [e, calculate_eval_1_0_20]
  · have e : -((DAILY_XP_VALUE : Int) : ℚ) = -20 := by norm_num [DAILY_XP_VALUE]
    simp only [toggle_daily, sampleDaily, sampleStats]
    norm_num [e, calculate_eval_1_20_undo]

/-! ## Deleting loan tasks (C5) -/

lemma mult_hard : TODO_DIFFICULTY_MULTIPLIERS "hard" = 4 := by
  unfold TODO_DIFFICULTY_MULTIPLIERS
  rw [if_neg (by decide), if_neg (by decide), if_pos rfl]

lemma complete_sample_eval :
    complete_todo sampleLoanTodo sampleStats 1 =
      .ok (completedLoanTodo, { hp := 100, xp := 80, gold := 80, level := 1, max_xp := 100 }) := by
  have e : ((TODO_XP_VALUE : Int) : ℚ) * TODO_DIFFICULTY_MULTIPLIERS "hard" = 80 := by
    rw [mult_hard]
    norm_num [TODO_XP_VALUE]
  simp only [complete_todo, sampleLoanTodo, sampleStats, completedLoanTodo]
  norm_num [e, calculate_eval_1_0_80]

/-- **C5 counterexample**.  The claim says deletion claws back
`upfrontGoldGiven` only when the task was not completed, and that deleting
a completed task deducts nothing.  The loan todo of the spec's scenario
(difficulty hard, upfront 40), once completed (reachable: create, then
complete — which leaves `upfront_gold_given` at 40), is then deleted by
its owner holding 80 gold: the code deducts 40, leaving 40, not 80. -/
theorem C5_completed_delete_counterexample :
    create_todo "hard" (some 100) 0 true "m".toList 0 =
        { todo := sampleLoanTodo, gold := 40, logs := ["todo_create"] } ∧
      complete_todo sampleLoanTodo sampleStats 1 =
        .ok (completedLoanTodo, { hp := 100, xp := 80, gold := 80, level := 1, max_xp := 100 }) ∧
      completedLoanTodo.status = .completed ∧
      completedLoanTodo.upfront_gold_given = 40 ∧
      (delete_todo completedLoanTodo 80).gold = 40 ∧
      (delete_todo completedLoanTodo 80).cancelRequested = false ∧
      (40 : ℚ) ≠ 80 := by
  refine ⟨?_, complete_sample_eval, by decide, by norm_num [completedLoanTodo, sampleLoanTodo],
    ?_, ?_, by norm_num⟩
  · simp [create_todo, isFutureDeadline, schedule_expiry_check, sampleLoanTodo,
      TODO_REWARD_GOLD, mult_hard]
    norm_num
  · simp only [delete_todo]
    rw [if_pos (by norm_num [completedLoanTodo, sampleLoanTodo])]
    norm_num [completedLoanTodo, sampleLoanTodo]
  · simp [delete_todo, completedLoanTodo, sampleLoanTodo]

/-- **C5 amended** (proved).  Deleting a loan task requests cancellation
of the scheduled callback exactly when a handle is present, and deducts
exactly `upfrontGoldGiven` (not the 2× overdue penalty) from the owner's
gold, floored at 0, if and only if `upfrontGoldGiven > 0` — regardless of
completion: completing a todo leaves `upfrontGoldGiven` in place, so
deleting a previously completed loan task also deducts it. -/
theorem C5_delete_clawback_amended :
    (∀ (t : Todo) (gold : ℚ),
        (delete_todo t gold).cancelRequested = t.qstash_message_id.isSome ∧
          (0 < t.upfront_gold_given →
            (delete_todo t gold).gold = max 0 (gold - t.upfront_gold_given)) ∧
          (¬ 0 < t.upfront_gold_given → (delete_todo t gold).gold = gold)) ∧
      (∀ (t : Todo) (s : UserStats) (now : Int) (r : Todo × UserStats),
        complete_todo t s now = .ok r →
          r.1.upfront_gold_given = t.upfront_gold_given ∧ r.1.status = .completed) := by
  constructor
  · intro t gold
    unfold delete_todo
    refine ⟨?_, fun h => ?_, fun h => ?_⟩
    · by_cases h : t.upfront_gold_given > 0 <;> simp [h]
    · rw [if_pos h]
    · rw [if_neg h]
  · intro t s now r h
    simp only [complete_todo] at h
    by_cases hs : t.status ≠ .active
    · rw [if_pos hs] at h
      exact absurd h (by simp)
    · rw [if_neg hs] at h
      split at h
      · exact absurd h (by simp)
      · injection h with h'
        subst h'
        exact ⟨rfl, rfl⟩

/-- Witness for C5 (amended): the completed loan todo (upfront 40) deleted
at 80 gold hits the deducting branch; the completion that produced it kept
the upfront amount. -/
theorem C5_delete_clawback_amended_witness :
    (0 : ℚ) < completedLoanTodo.upfront_gold_given ∧
      (delete_todo completedLoanTodo 80).gold =
        max 0 (80 - completedLoanTodo.upfront_gold_given) ∧
      completedLoanTodo.upfront_gold_given = sampleLoanTodo.upfront_gold_given :=
  ⟨by norm_num [completedLoanTodo, sampleLoanTodo],
    (C5_delete_clawback_amended.1 completedLoanTodo 80).2.1
      (by norm_num [completedLoanTodo, sampleLoanTodo]),
    (C5_delete_clawback_amended.2 sampleLoanTodo sampleStats 1 _ complete_sample_eval).1⟩

/-! ## The scheduled-callback handle invariant (C6) -/

/-- **C6 counterexample**.  The invariant "handle non-null iff active with
a future deadline" holds of the freshly created loan todo but is broken by
the deadline callback (which marks it overdue without clearing the
handle), and also by an edit that moves the deadline to a non-future time
(which keeps the old handle and schedules nothing). -/
theorem C6_callback_breaks_invariant_counterexample :
    LoanInv sampleLoanTodo 50 ∧
      ¬ LoanInv (check_todo_validity sampleLoanTodo 40).1 50 ∧
      update_todo sampleLoanTodo 40 (some (some 20)) 50 true "m2".toList =
        .ok ({ sampleLoanTodo with deadline := some 20 }, 40) ∧
      ¬ LoanInv { sampleLoanTodo with deadline := some 20 } 50 := by
  refine ⟨by decide, by decide, ?_, by decide⟩
  simp [update_todo, sampleLoanTodo]

/-- **C6 amended** (proved).  The handle invariant holds of the todo
produced by create (at creation time), by a successful complete (at all
times), by a successful renew (at renew time), and by a deadline edit that
removes the deadline (at all times, given the invariant held before) or
sets a future one (at edit time); it is **not** preserved by deadline
callback delivery — firing on an active task with a handle leaves the
handle set while the status becomes overdue — nor by an edit that changes
the deadline to a non-future time. -/
theorem C6_loan_invariant_amended :
    (∀ (diff : String) (dl : Option Int) (now : Int) (ok : Bool) (mid : MsgId) (g : ℚ),
        LoanInv (create_todo diff dl now ok mid g).todo now) ∧
      (∀ (t : Todo) (s : UserStats) (now : Int) (r : Todo × UserStats),
        complete_todo t s now = .ok r → ∀ m : Int, LoanInv r.1 m) ∧
      (∀ (t : Todo) (g : ℚ) (dl : Option Int) (now : Int) (ok : Bool) (mid : MsgId)
          (r : Todo × ℚ),
        renew_todo t g dl now ok mid = .ok r → LoanInv r.1 now) ∧
      (∀ (t : Todo) (g : ℚ) (now : Int) (ok : Bool) (mid : MsgId) (r : Todo × ℚ),
        LoanInv t now → update_todo t g (some none) now ok mid = .ok r →
          ∀ m : Int, LoanInv r.1 m) ∧
      (∀ (t : Todo) (g : ℚ) (d now : Int) (ok : Bool) (mid : MsgId) (r : Todo × ℚ),
        update_todo t g (some (some d)) now ok mid = .ok r → now < d →
          LoanInv r.1 now) ∧
      (∀ (t : Todo) (g : ℚ), t.status = .active → t.qstash_message_id.isSome = true →
        ∀ m : Int, ¬ LoanInv (check_todo_validity t g).1 m) := by
  refine ⟨?_, ?_, ?_, ?_, ?_, ?_⟩
  · intro diff dl now ok mid g
    by_cases hf : isFutureDeadline dl now
    · simp [create_todo, LoanInv, hf]
    · simp [create_todo, LoanInv, hf]
  · intro t s now r h m
    simp only [complete_todo] at h
    by_cases hs : t.status ≠ .active
    · rw [if_pos hs] at h
      exact absurd h (by simp)
    · rw [if_neg hs] at h
      split at h
      · exact absurd h (by simp)
      · injection h with h'
        subst h'
        simp [LoanInv]
  · intro t g dl now ok mid r h
    simp only [renew_todo] at h
    by_cases hs : t.status ≠ .overdue
    · rw [if_pos hs] at h
      exact absurd h (by simp)
    · rw [if_neg hs] at h
      rcases dl with _ | d
      · exact absurd h (by simp)
      · simp only at h
        by_cases hd : d ≤ now
        · rw [if_pos hd] at h
          exact absurd h (by simp)
        · rw [if_neg hd] at h
          by_cases hg : g < 1 / 10 * t.potential_reward
          · rw [if_pos hg] at h
            exact absurd h (by simp)
          · rw [if_neg hg] at h
            injection h with h'
            subst h'
            simp [LoanInv, isFutureDeadline]
            omega
  · intro t g now ok mid r hInv h m
    simp only [update_todo] at h
    by_cases hs : t.status ≠ .active
    · rw [if_pos hs] at h
      exact absurd h (by simp)
    · rw [if_neg hs] at h
      rcases hd : t.deadline with _ | od
      · rw [hd] at h
        simp only at h
        injection h with h'
        subst h'
        have hfalse : t.qstash_message_id.isSome = false := by
          rcases hq : t.qstash_message_id with _ | q
          · rfl
          · exfalso
            have := hInv.mp (by rw [hq]; rfl)
            rw [hd] at this
            simp [isFutureDeadline] at this
        simp only [LoanInv, hfalse]
        simp [hd, isFutureDeadline]
      · rw [hd] at h
        simp only at h
        injection h with h'
        subst h'
        simp [LoanInv, isFutureDeadline]
  · intro t g d now ok mid r h hdfut
    simp only [update_todo] at h
    by_cases hs : t.status ≠ .active
    · rw [if_pos hs] at h
      exact absurd h (by simp)
    · rw [if_neg hs] at h
      have hact : t.status = .active := by
        by_contra hc
        exact hs hc
      rcases hd : t.deadline with _ | od
      · rw [hd] at h
        simp only at h
        rw [if_pos hdfut] at h
        injection h with h'
        subst h'
        simp [LoanInv, isFutureDeadline, hact, hdfut]
      · rw [hd] at h
        simp only at h
        rw [if_pos hdfut] at h
        injection h with h'
        subst h'
        simp [LoanInv, isFutureDeadline, hact, hdfut]
  · intro t g hact hq m
    rw [check_active hact]
    simp only [LoanInv]
    intro hiff
    have := hiff.mp (by simpa using hq)
    simp at this

/-- Witness for C6 (amended): completing the sample loan todo yields a
state satisfying the invariant at every time; firing the callback on the
sample loan todo (active, handle set) yields a state violating it. -/
theorem C6_loan_invariant_amended_witness :
    complete_todo sampleLoanTodo sampleStats 1 =
        .ok (completedLoanTodo, { hp := 100, xp := 80, gold := 80, level := 1, max_xp := 100 }) ∧
      LoanInv completedLoanTodo 123 ∧
      sampleLoanTodo.status = .active ∧
      sampleLoanTodo.qstash_message_id.isSome = true ∧
      ¬ LoanInv (check_todo_validity sampleLoanTodo 40).1 0 :=
  ⟨complete_sample_eval,
    C6_loan_invariant_amended.2.1 sampleLoanTodo sampleStats 1 _ complete_sample_eval 123,
    rfl, rfl,
    C6_loan_invariant_amended.2.2.2.2.2 sampleLoanTodo 40 rfl rfl 0⟩

/-! ## Habit milestones (C7) -/

lemma mult_easy : HABIT_TRIGGER_MULT "easy" = 1 := by
  unfold HABIT_TRIGGER_MULT
  rw [if_pos rfl]

lemma triggerBase_success (ty : String) : triggerBase ty .success = (10, 5, 1, 0) := by
  unfold triggerBase
  by_cases hp : ty = "positive"
  · rw [if_pos ⟨hp, rfl⟩]
  · rw [if_neg (by simp [hp]), if_neg (by simp), if_pos ⟨hp, rfl⟩]

lemma milestoneUpdate_growth (h : Habit) (sc ns : Int) (mult xp1 gold1 : ℚ) (now : Ts) :
    (milestoneUpdate h sc ns mult xp1 gold1 now).2.2.1 = h.milestones ∨
      ∃ m : Milestone,
        (milestoneUpdate h sc ns mult xp1 gold1 now).2.2.1 = h.milestones ++ [m] ∧
          m.label ∉ h.milestones.map (fun m' => m'.label) := by
  unfold milestoneUpdate
  by_cases hc : sc = 1 ∧ ns ∈ MILESTONES ∧
      milestoneLabel ns ∉ h.milestones.map (fun m => m.label)
  · rw [if_pos hc]
    exact Or.inr ⟨_, rfl, hc.2.2⟩
  · rw [if_neg hc]
    exact Or.inl rfl

lemma milestoneUpdate_present (h : Habit) (sc ns : Int) (mult xp1 gold1 : ℚ) (now : Ts)
    (hmem : milestoneLabel ns ∈ h.milestones.map (fun m' => m'.label)) :
    milestoneUpdate h sc ns mult xp1 gold1 now = (false, "", h.milestones, xp1, gold1) := by
  unfold milestoneUpdate
  rw [if_neg (fun hc => hc.2.2 hmem)]

lemma trigger_habit_milestones {h : Habit} {a : HabitAction} {s : UserStats} {now : Ts}
    {r : TriggerResult} (htr : trigger_habit h a s now = .ok r) :
    r.habit.milestones = h.milestones ∨
      ∃ m : Milestone, r.habit.milestones = h.milestones ++ [m] ∧
        m.label ∉ h.milestones.map (fun m' => m'.label) := by
  simp only [trigger_habit] at htr
  split at htr
  · exact absurd htr (by simp)
  · injection htr with h'
    subst h'
    exact milestoneUpdate_growth h _ _ _ _ _ now

lemma triggerStep_growth (st : Habit × UserStats) (a : HabitAction × Ts) :
    st.1.milestones <+: (triggerStep st a).1.milestones ∧
      ((st.1.milestones.map (fun m' => m'.label)).Nodup →
        ((triggerStep st a).1.milestones.map (fun m' => m'.label)).Nodup) := by
  unfold triggerStep
  rcases htr : trigger_habit st.1 a.1 st.2 a.2 with e | r
  · exact ⟨List.prefix_rfl, fun hn => hn⟩
  · simp only
    rcases trigger_habit_milestones htr with heq | ⟨m, heq, hnot⟩
    · rw [heq]
      exact ⟨List.prefix_rfl, fun hn => hn⟩
    · rw [heq]
      refine ⟨List.prefix_append _ _, fun hn => ?_⟩
      rw [List.map_append]
      refine List.Nodup.append hn (List.nodup_singleton _) ?_
      intro x hx hx2
      simp only [List.map_cons, List.map_nil, List.mem_singleton] at hx2
      subst hx2
      exact hnot hx

lemma runTriggers_growth (acts : List (HabitAction × Ts)) (st : Habit × UserStats) :
    st.1.milestones <+: (runTriggers st acts).1.milestones ∧
      ((st.1.milestones.map (fun m' => m'.label)).Nodup →
        ((runTriggers st acts).1.milestones.map (fun m' => m'.label)).Nodup) := by
  induction acts generalizing st with
  | nil => exact ⟨List.prefix_rfl, fun hn => hn⟩
  | cons a rest ih =>
    have h1 := triggerStep_growth st a
    have h2 := ih (triggerStep st a)
    have hrw : runTriggers st (a :: rest) = runTriggers (triggerStep st a) rest := rfl
    rw [hrw]
    exact ⟨h1.1.trans h2.1, fun hn => h2.2 (h1.2 hn)⟩

lemma trigger_rereach {h : Habit} {s : UserStats} {now : Ts} {r : TriggerResult}
    (htr : trigger_habit h .success s now = .ok r)
    (hmem : milestoneLabel (h.current_streak + 1) ∈ h.milestones.map (fun m' => m'.label)) :
    r.habit.milestones = h.milestones ∧ r.badge_unlocked = false ∧
      r.xp_change = 10 * HABIT_TRIGGER_MULT h.difficulty ∧
      r.gold_change = 5 * HABIT_TRIGGER_MULT h.difficulty := by
  simp only [trigger_habit, triggerBase_success, reduceIte] at htr
  rw [milestoneUpdate_present h 1 (h.current_streak + 1) _ _ _ now hmem] at htr
  simp only [zero_mul, lt_irrefl, if_neg (lt_irrefl (0 : ℚ))] at htr
  split at htr
  · exact absurd htr (by simp)
  · injection htr with h'
    subst h'
    exact ⟨rfl, rfl, rfl, rfl⟩

/-- **C7** (confirmed).  Over any sequence of trigger operations, an
habit's milestone list only ever grows (the old list stays a prefix: no
label is removed) and never acquires a duplicate label; and a success
trigger whose new streak re-reaches a day count whose label is already
present leaves the milestone list unchanged, unlocks no badge, and grants
only the base reward (no milestone bonus). -/
theorem C7_milestone_labels_permanent :
    (∀ (h : Habit) (s : UserStats) (acts : List (HabitAction × Ts)),
        h.milestones <+: (runTriggers (h, s) acts).1.milestones ∧
          ((h.milestones.map (fun m' => m'.label)).Nodup →
            ((runTriggers (h, s) acts).1.milestones.map (fun m' => m'.label)).Nodup)) ∧
      (∀ (h : Habit) (s : UserStats) (now : Ts) (r : TriggerResult),
        trigger_habit h .success s now = .ok r →
          milestoneLabel (h.current_streak + 1) ∈ h.milestones.map (fun m' => m'.label) →
          r.habit.milestones = h.milestones ∧ r.badge_unlocked = false ∧
            r.xp_change = 10 * HABIT_TRIGGER_MULT h.difficulty ∧
            r.gold_change = 5 * HABIT_TRIGGER_MULT h.difficulty) :=
  ⟨fun h s acts => runTriggers_growth acts (h, s),
    fun _ _ _ _ htr hmem => trigger_rereach htr hmem⟩

lemma trigger_sample_eval :
    trigger_habit sampleHabit .success sampleStats ⟨1, 0⟩ = .ok sampleTriggerResult := by
  have hlabel : milestoneLabel 7 = "7-Day Streak!" := by decide
  have hmem : milestoneLabel (sampleHabit.current_streak + 1) ∈
      sampleHabit.milestones.map (fun m' => m'.label) := by
    simp [sampleHabit, hlabel]
  have hupd := milestoneUpdate_present sampleHabit 1 (sampleHabit.current_streak + 1)
    (HABIT_TRIGGER_MULT sampleHabit.difficulty)
    (10 * HABIT_TRIGGER_MULT sampleHabit.difficulty)
    (5 * HABIT_TRIGGER_MULT sampleHabit.difficulty) ⟨1, 0⟩ hmem
  simp only [trigger_habit, triggerBase_success, reduceIte]
  rw [hupd]
  have hmult : HABIT_TRIGGER_MULT sampleHabit.difficulty = 1 := mult_easy
  simp only [zero_mul, if_neg (lt_irrefl (0 : ℚ)), hmult, mul_one]
  rw [show sampleStats.level = 1 from rfl, show sampleStats.xp = (0 : ℚ) from rfl,
    calculate_eval_1_0_10]
  simp only [Except.ok.injEq, sampleTriggerResult, TriggerResult.mk.injEq]
  refine ⟨?_, ?_, trivial, trivial, trivial, trivial⟩
  · simp only [Habit.mk.injEq, sampleHabit]
    norm_num
  · simp only [UserStats.mk.injEq, sampleStats]
    norm_num

/-- Witness for C7: the sample habit (streak 6, 7-day label already
unlocked) triggered with success once: the milestone list is unchanged
and nodup, nothing is re-unlocked, and only the base reward is granted. -/
theorem C7_milestone_labels_permanent_witness :
    ((sampleHabit.milestones.map (fun m' => m'.label)).Nodup ∧
        sampleHabit.milestones <+:
          (runTriggers (sampleHabit, sampleStats) [(.success, ⟨1, 0⟩)]).1.milestones ∧
        ((runTriggers (sampleHabit, sampleStats)
            [(.success, ⟨1, 0⟩)]).1.milestones.map (fun m' => m'.label)).Nodup) ∧
      (milestoneLabel (sampleHabit.current_streak + 1) ∈
          sampleHabit.milestones.map (fun m' => m'.label) ∧
        sampleTriggerResult.habit.milestones = sampleHabit.milestones ∧
        sampleTriggerResult.badge_unlocked = false ∧
        sampleTriggerResult.xp_change = 10 * HABIT_TRIGGER_MULT sampleHabit.difficulty ∧
        sampleTriggerResult.gold_change = 5 * HABIT_TRIGGER_MULT sampleHabit.difficulty) := by
  have hnodup : (sampleHabit.milestones.map (fun m' => m'.label)).Nodup := by
    simp [sampleHabit]
  have hmem : milestoneLabel (sampleHabit.current_streak + 1) ∈
      sampleHabit.milestones.map (fun m' => m'.label) := by
    simp [sampleHabit, show milestoneLabel 7 = "7-Day Streak!" from by decide]
  refine ⟨⟨hnodup,
      (C7_milestone_labels_permanent.1 sampleHabit sampleStats [(.success, ⟨1, 0⟩)]).1,
      (C7_milestone_labels_permanent.1 sampleHabit sampleStats [(.success, ⟨1, 0⟩)]).2 hnodup⟩,
    hmem,
    C7_milestone_labels_permanent.2 sampleHabit sampleStats ⟨1, 0⟩ sampleTriggerResult
      trigger_sample_eval hmem⟩

/-! ## Sweep idempotence (C8) and sweep frame (C10) -/

lemma sweep_skip {u : SweepUser} {now : Ts}
    (h : dayRolledOver u.last_cron_check now = false) :
    run_daily_maintenance_user now u = (u, []) := by
  unfold run_daily_maintenance_user
  simp [h]

lemma sweep_sets_watermark {u : SweepUser} {now : Ts}
    (h : dayRolledOver u.last_cron_check now = true) :
    (run_daily_maintenance_user now u).1.last_cron_check = some now := by
  unfold run_daily_maintenance_user
  simp [h]

/-- **C8** (confirmed).  Running the per-user sweep a second time on the
same calendar day, with no activity in between, is a complete no-op: the
state is returned unchanged and no write or log tag is issued. -/
theorem C8_sweep_idempotent_same_day (u : SweepUser) (now1 now2 : Ts)
    (h : now1.day = now2.day) :
    run_daily_maintenance_user now2 (run_daily_maintenance_user now1 u).1 =
      ((run_daily_maintenance_user now1 u).1, ([] : List String)) := by
  by_cases h1 : dayRolledOver u.last_cron_check now1
  · apply sweep_skip
    rw [sweep_sets_watermark h1]
    unfold dayRolledOver
    simp
    omega
  · have h1' : dayRolledOver u.last_cron_check now1 = false := by
      simpa using h1
    rw [sweep_skip h1']
    apply sweep_skip
    rcases hl : u.last_cron_check with _ | lc
    · rw [hl] at h1'
      simp [dayRolledOver] at h1'
    · rw [hl] at h1'
      unfold dayRolledOver at h1' ⊢
      simp at h1' ⊢
      omega

/-- Witness for C8: the sample user swept at two times on day 10. -/
theorem C8_sweep_idempotent_same_day_witness :
    (⟨10, 5⟩ : Ts).day = (⟨10, 23⟩ : Ts).day ∧
      run_daily_maintenance_user ⟨10, 23⟩
          (run_daily_maintenance_user ⟨10, 5⟩ sampleSweepUser).1 =
        ((run_daily_maintenance_user ⟨10, 5⟩ sampleSweepUser).1, ([] : List String)) :=
  ⟨rfl, C8_sweep_idempotent_same_day sampleSweepUser ⟨10, 5⟩ ⟨10, 23⟩ rfl⟩

/-- **C10** (confirmed).  The sweep never touches the trigger-variant
`habits` collection — every trigger-variant habit (and hence its streak)
is left exactly as it was — and within the generic `tasks` collection it
leaves every entry whose kind is neither `habit` nor `daily` unchanged
(pointwise, via `Forall₂`, which also forces equal lengths). -/
theorem C10_sweep_frame (now : Ts) (u : SweepUser) :
    (run_daily_maintenance_user now u).1.habits = u.habits ∧
      List.Forall₂ (fun t t' : Task => t.type ≠ "habit" → t.type ≠ "daily" → t' = t)
        u.tasks (run_daily_maintenance_user now u).1.tasks := by
  unfold run_daily_maintenance_user
  by_cases h1 : dayRolledOver u.last_cron_check now
  · simp only [h1, if_pos]
    constructor
    · trivial
    · simp only [List.map_map]
      rw [List.forall₂_map_right_iff]
      apply List.forall₂_same.mpr
      intro t ht hth htd
      have hbeq : (t.type == "daily") = false := beq_eq_false_iff_ne.mpr htd
      simp [Function.comp, if_neg hth, hbeq]
  · have h1' : dayRolledOver u.last_cron_check now = false := by simpa using h1
    simp only [h1']
    refine ⟨rfl, ?_⟩
    exact List.forall₂_same.mpr (fun t ht hth htd => rfl)

/-! ## Scheduling failure tolerance (C9) -/

/-- **C9** (confirmed).  A failed registration returns the `error-`
sentinel handle instead of raising; cancelling a sentinel handle, a
missing (falsy) handle, or any handle at all is a no-op returning one of
the three status strings `skipped`/`success`/`failed` (an already-fired
handle makes the remote cancel raise, which is swallowed into `failed`);
and the surrounding create/renew/edit operations are unaffected by the
registration outcome: create yields the same gold and an active todo
carrying the sentinel as its handle, and renew/edit succeed or fail
identically whether or not registration works. -/
theorem C9_scheduling_failure_tolerance :
    (∀ (mid : MsgId) (ts : Int),
        schedule_expiry_check false mid ts = "error-".toList ++ (toString ts).toList) ∧
      (∀ (cOk : Bool) (mid : MsgId) (ts : Int),
        cancel_previous_schedule cOk (schedule_expiry_check false mid ts) = "skipped") ∧
      (∀ cOk : Bool, cancel_previous_schedule cOk [] = "skipped") ∧
      (∀ (cOk : Bool) (mid : MsgId),
        cancel_previous_schedule cOk mid = "skipped" ∨
          cancel_previous_schedule cOk mid = "success" ∨
          cancel_previous_schedule cOk mid = "failed") ∧
      (∀ (diff : String) (dl : Option Int) (now : Int) (mid mid2 : MsgId) (g : ℚ),
        (create_todo diff dl now false mid g).gold =
            (create_todo diff dl now true mid2 g).gold ∧
          (create_todo diff dl now false mid g).todo.status = .active ∧
          (isFutureDeadline dl now = true →
            (create_todo diff dl now false mid g).todo.qstash_message_id =
              some ("error-".toList ++ (toString now).toList))) ∧
      (∀ (t : Todo) (g : ℚ) (dl : Option Int) (now : Int) (mid mid2 : MsgId),
        (renew_todo t g dl now false mid).isOk = (renew_todo t g dl now true mid2).isOk) ∧
      (∀ (t : Todo) (g : ℚ) (upd : Option (Option Int)) (now : Int) (mid mid2 : MsgId),
        (update_todo t g upd now false mid).isOk =
          (update_todo t g upd now true mid2).isOk) := by
  refine ⟨fun mid ts => rfl, ?_, ?_, ?_, ?_, ?_, ?_⟩
  · intro cOk mid ts
    have hp : "error-".toList.isPrefixOf ("error-".toList ++ (toString ts).toList) = true :=
      List.isPrefixOf_iff_prefix.mpr (List.prefix_append _ _)
    simp [cancel_previous_schedule, schedule_expiry_check, hp]
  · intro cOk
    rfl
  · intro cOk mid
    unfold cancel_previous_schedule
    split
    · exact Or.inl rfl
    · split
      · exact Or.inr (Or.inl rfl)
      · exact Or.inr (Or.inr rfl)
  · intro diff dl now mid mid2 g
    by_cases hf : isFutureDeadline dl now = true
    · refine ⟨?_, ?_, fun _ => ?_⟩ <;>
        simp [create_todo, hf, schedule_expiry_check]
    · have hf' : isFutureDeadline dl now = false := by simpa using hf
      refine ⟨?_, ?_, fun hcon => absurd hcon (by simp [hf'])⟩ <;>
        simp [create_todo, hf']
  · intro t g dl now mid mid2
    unfold renew_todo
    by_cases hs : t.status ≠ .overdue
    · rw [if_pos hs, if_pos hs]
    · rw [if_neg hs, if_neg hs]
      rcases dl with _ | d
      · rfl
      · simp only
        by_cases hd : d ≤ now
        · rw [if_pos hd, if_pos hd]
        · rw [if_neg hd, if_neg hd]
          by_cases hg : g < 1 / 10 * t.potential_reward
          · rw [if_pos hg, if_pos hg]
          · rw [if_neg hg, if_neg hg]
            rfl
  · intro t g upd now mid mid2
    unfold update_todo
    by_cases hs : t.status ≠ .active
    · rw [if_pos hs, if_pos hs]
    · rw [if_neg hs, if_neg hs]
      rcases upd with _ | nd
      · rfl
      · simp only
        rcases hd : t.deadline with _ | od
        · rcases nd with _ | d
          · rfl
          · simp only
            by_cases h : now < d
            · rw [if_pos h, if_pos h]
              rfl
            · rw [if_neg h, if_neg h]
        · rcases nd with _ | d
          · rfl
          · simp only
            by_cases h : now < d
            · rw [if_pos h, if_pos h]
              rfl
            · rw [if_neg h, if_neg h]

/-- Witness for C9: a create at time 0 with a future deadline and failed
registration still succeeds and carries the sentinel handle. -/
theorem C9_scheduling_failure_tolerance_witness :
    isFutureDeadline (some 100) 0 = true ∧
      (create_todo "hard" (some 100) 0 false "x".toList 7).todo.qstash_message_id =
        some ("error-".toList ++ (toString (0 : Int)).toList) :=
  ⟨rfl,
    (C9_scheduling_failure_tolerance.2.2.2.2.1 "hard" (some 100) 0
      "x".toList "y".toList 7).2.2 rfl⟩

end LifeQuest
